import Mathlib

/-!
Shallow embedding of `newrelic/core/data_collector.py` (the telemetry
transport layer of the New Relic Python agent): the `Session` class with its
span-stream lifecycle, payload submission methods and log-events common-block
builder, the `DeveloperModeSession` and `ServerlessModeSession` variants, and
the `create_session` factory.

External collaborators (the wire protocols, the streaming RPC transport, the
attribute normalizer) are modelled at their boundary, as the module consumes
them: the protocols as oracles whose calls are recorded, `StreamingRpc` as a
record created by the session, and `process_user_attribute` as an abstract
function that may reject a pair or fail.  Python exceptions are modelled with
`Except`; Python `dict`s as insertion-ordered association lists with
overwrite-on-update semantics.
-/

/-! ### Configuration model

The slice of the process-wide configuration read by `data_collector.py`.
Python attribute paths become nested structure fields. -/

/-- `configuration.infinite_tracing.*` as read by `connect_span_stream`.
The host is `Option String` because the setting may be unset (`None`). -/
structure InfiniteTracingSettings where
  trace_observer_host : Option String
  trace_observer_port : Nat
  ssl : Bool
  compression : Bool
deriving DecidableEq, Repr

/-- `configuration.distributed_tracing.*`. -/
structure DistributedTracingSettings where
  enabled : Bool
deriving DecidableEq, Repr

/-- `configuration.span_events.*`. -/
structure SpanEventsSettings where
  enabled : Bool
deriving DecidableEq, Repr

/-- `configuration.debug.*` (only the flag read by `DeveloperModeSession`). -/
structure DebugSettings where
  connect_span_stream_in_developer_mode : Bool
deriving DecidableEq, Repr

/-- The slice of `self.configuration` used by the span-stream lifecycle. -/
structure Configuration where
  infinite_tracing : InfiniteTracingSettings
  distributed_tracing : DistributedTracingSettings
  span_events : SpanEventsSettings
  collect_span_events : Bool
  agent_run_id : Nat
  license_key : String
  debug : DebugSettings
deriving DecidableEq, Repr

/-- Python truthiness of an optional string: `not host` is true when the
setting is `None` or the empty string.  Returns the host when truthy. -/
def pyTruthyStr : Option String → Option String
  | none => none
  | some s => if s = "" then none else some s

/-! ### StreamingRpc (external capability)

`newrelic.core.agent_streaming.StreamingRpc` at its boundary: constructed
from an endpoint, auth metadata and transport settings, then `connect()`ed
and eventually `close()`d.  The two booleans record which lifecycle calls
have been made on the handle. -/

/-- A streaming channel handle as the session observes it. -/
structure StreamingRpc where
  endpoint : String
  metadata : (String × Nat) × (String × String)
  ssl : Bool
  compression : Bool
  connected : Bool
  closed : Bool
deriving DecidableEq, Repr

/-- `StreamingRpc(endpoint, span_iterator, metadata, record_metric, ssl=…,
compression=…)`: a fresh, not yet connected channel. -/
def StreamingRpc.new (endpoint : String) (metadata : (String × Nat) × (String × String))
    (ssl compression : Bool) : StreamingRpc :=
  { endpoint := endpoint, metadata := metadata, ssl := ssl, compression := compression,
    connected := false, closed := false }

/-- `rpc.connect()`. -/
def StreamingRpc.connect (r : StreamingRpc) : StreamingRpc :=
  { r with connected := true }

/-- `rpc.close()`. -/
def StreamingRpc.close (r : StreamingRpc) : StreamingRpc :=
  { r with closed := true }

/-! ### Session state and the span-stream lifecycle -/

/-- The mutable state of a `Session` relevant to the span stream: the
`self._rpc` attribute, `None` until a channel is created. -/
structure SessionState where
  rpc : Option StreamingRpc
deriving DecidableEq, Repr

/-- `self._rpc = None` at the end of `Session.__init__`. -/
def SessionState.initial : SessionState := { rpc := none }

/-- `Session.connect_span_stream(self, span_iterator, record_metric)`:
returns the updated state together with the method's Python return value
(`some rpc` when the final `return rpc` runs, `none` for every bare
`return` / fall-through). -/
def Session.connect_span_stream (cfg : Configuration) (s : SessionState) :
    SessionState × Option StreamingRpc :=
  if s.rpc.isSome then (s, none)
  else
    match pyTruthyStr cfg.infinite_tracing.trace_observer_host with
    | none => (s, none)
    | some host =>
      let port := cfg.infinite_tracing.trace_observer_port
      let ssl := cfg.infinite_tracing.ssl
      let compression_setting := cfg.infinite_tracing.compression
      let endpoint := host ++ ":" ++ toString port
      if cfg.distributed_tracing.enabled && cfg.span_events.enabled
          && cfg.collect_span_events then
        let metadata := (("agent_run_token", cfg.agent_run_id),
                         ("license_key", cfg.license_key))
        let rpc := (StreamingRpc.new endpoint metadata ssl compression_setting).connect
        ({ rpc := some rpc }, some rpc)
      else (s, none)

/-- `Session.shutdown_span_stream(self)`: `close()` the channel if one
exists; the `self._rpc` attribute itself is not cleared. -/
def Session.shutdown_span_stream (s : SessionState) : SessionState :=
  match s.rpc with
  | none => s
  | some r => { rpc := some r.close }

/-- `DeveloperModeSession.connect_span_stream`: gated by the debug flag; the
`super()` call's return value is discarded, so the method always returns
`None`. -/
def DeveloperModeSession.connect_span_stream (cfg : Configuration) (s : SessionState) :
    SessionState × Option StreamingRpc :=
  if cfg.debug.connect_span_stream_in_developer_mode then
    ((Session.connect_span_stream cfg s).1, none)
  else (s, none)

/-- `ServerlessModeSession.connect_span_stream`: `pass`. -/
def ServerlessModeSession.connect_span_stream (_cfg : Configuration) (s : SessionState) :
    SessionState × Option StreamingRpc :=
  (s, none)

/-- The channel that `Session.connect_span_stream` creates when all gating
conditions hold, given the truthy host. -/
def createdRpc (cfg : Configuration) (host : String) : StreamingRpc :=
  (StreamingRpc.new (host ++ ":" ++ toString cfg.infinite_tracing.trace_observer_port)
      (("agent_run_token", cfg.agent_run_id), ("license_key", cfg.license_key))
      cfg.infinite_tracing.ssl cfg.infinite_tracing.compression).connect

/-! ### Operation traces over one session

Used to state the at-most-one-channel invariant over arbitrary call
sequences. -/

/-- One call the host can make against the span-stream lifecycle. -/
inductive SessionOp where
  | connect (cfg : Configuration)
  | connectDev (cfg : Configuration)
  | connectServerless (cfg : Configuration)
  | shutdown
deriving DecidableEq, Repr

/-- Apply one operation to the session state. -/
def SessionOp.apply (s : SessionState) : SessionOp → SessionState
  | .connect cfg => (Session.connect_span_stream cfg s).1
  | .connectDev cfg => (DeveloperModeSession.connect_span_stream cfg s).1
  | .connectServerless cfg => (ServerlessModeSession.connect_span_stream cfg s).1
  | .shutdown => Session.shutdown_span_stream s

/-- Run a sequence of operations, counting how many of them created a
channel (observed as the `self._rpc` attribute going from absent to
present). -/
def runOps : SessionState → List SessionOp → SessionState × Nat
  | s, [] => (s, 0)
  | s, op :: rest =>
    let s' := op.apply s
    let created := !s.rpc.isSome && s'.rpc.isSome
    let (s'', n) := runOps s' rest
    (s'', (if created then 1 else 0) + n)

/-! ### The session factory -/

/-- `settings.serverless_mode.*`. -/
structure ServerlessModeSettings where
  enabled : Bool
deriving DecidableEq, Repr

/-- The slice of `global_settings()` read by `create_session`. -/
structure GlobalSettings where
  serverless_mode : ServerlessModeSettings
  developer_mode : Bool
deriving DecidableEq, Repr

/-- Which `Session` class a call constructs. -/
inductive SessionKind where
  | serverlessModeSession
  | developerModeSession
  | session
deriving DecidableEq, Repr

/-- `create_session(license_key, app_name, linked_applications, environment)`:
reads `global_settings()` once and constructs exactly one variant.  The
identity arguments do not influence the choice, so the embedding keeps only
the settings and returns the constructed class. -/
def create_session (settings : GlobalSettings) : SessionKind :=
  if settings.serverless_mode.enabled then SessionKind.serverlessModeSession
  else if settings.developer_mode then SessionKind.developerModeSession
  else SessionKind.session

/-! ### send_transaction_traces

The primary protocol is an oracle `respond`; the first component of the
result records the `self._protocol.send` calls the method performed (empty
or a single call), the second is the method's Python return value. -/

/-- `Session.send_transaction_traces(self, transaction_traces)`. -/
def Session.send_transaction_traces {α ρ : Type} (respond : String → Nat × List α → ρ)
    (agent_run_id : Nat) (transaction_traces : List α) :
    List (String × (Nat × List α)) × Option ρ :=
  if transaction_traces.isEmpty then ([], none)
  else
    let payload := (agent_run_id, transaction_traces)
    ([("transaction_sample_data", payload)],
      some (respond "transaction_sample_data" payload))

/-! ### Python dicts as association lists

Insertion-ordered, overwrite-on-assign: the model of `dict` that the
common-block builder and `dict.update` need. -/

/-- `d[k] = v`: replace the value at an existing key in place, else append. -/
def dictInsert {V : Type} (d : List (String × V)) (k : String) (v : V) :
    List (String × V) :=
  match d with
  | [] => [(k, v)]
  | (k', v') :: rest =>
    if k' = k then (k', v) :: rest else (k', v') :: dictInsert rest k v

/-- `d[k]` lookup (first matching key; keys are unique in a real dict). -/
def dictLookup {V : Type} (d : List (String × V)) (k : String) : Option V :=
  match d with
  | [] => none
  | (k', v) :: rest => if k' = k then some v else dictLookup rest k

/-- `d.update(other)`: assign each of `other`'s entries into `d` in order. -/
def dictUpdate {V : Type} (d other : List (String × V)) : List (String × V) :=
  other.foldl (fun acc kv => dictInsert acc kv.1 kv.2) d

/-- `str.lower()` (ASCII case folding, as the label types use). -/
def pyLower (s : String) : String :=
  ⟨s.data.map Char.toLower⟩

/-! ### Log-forwarding configuration -/

/-- `configuration.application_logging.forwarding.labels.*`. -/
structure LabelsSettings where
  enabled : Bool
  exclude : List String
deriving DecidableEq, Repr

/-- `configuration.application_logging.forwarding.*`.  `V` is the type of
attribute values (Python values are untyped). -/
structure ForwardingSettings (V : Type) where
  custom_attributes : List (String × V)
  labels : LabelsSettings
deriving DecidableEq, Repr

/-- `configuration.application_logging.*`. -/
structure ApplicationLoggingSettings (V : Type) where
  forwarding : ForwardingSettings V
deriving DecidableEq, Repr

/-- The slice of `self.configuration` read by the log-events methods.
`labels` is the top-level labels setting: a list of
`(label_type, label_value)` entries (Python: `{"label_type": …,
"label_value": …}` dicts). -/
structure LogConfig (V : Type) where
  application_logging : ApplicationLoggingSettings V
  labels : List (String × V)
deriving DecidableEq, Repr

/-- `MAX_NUM_USER_ATTRIBUTES` from `newrelic.core.attribute`. -/
def MAX_NUM_USER_ATTRIBUTES : Nat := 128

/-! ### The log-events common-block builder

`process_user_attribute` is external (`newrelic.core.attribute`); it is
modelled as a function `pua` that may reject a pair (`ok none`, Python's
`key is None`), accept it (`ok (some (k, v))`), or raise (`error e`).  The
`Except` monad threads the possibility of a Python exception through the
body; the blanket `except Exception` guard is the final `match`. -/

/-- The `for attr_name, attr_value in …custom_attributes:` loop, building
the `custom_attributes` dict; `break` once the accepted count reaches
`MAX_NUM_USER_ATTRIBUTES`. -/
def processCustomAttrs {V E : Type} (pua : String → V → Except E (Option (String × V))) :
    List (String × V) → List (String × V) → Except E (List (String × V))
  | [], acc => Except.ok acc
  | (attr_name, attr_value) :: rest, acc =>
    if MAX_NUM_USER_ATTRIBUTES ≤ acc.length then Except.ok acc
    else
      match pua attr_name attr_value with
      | Except.error e => Except.error e
      | Except.ok none => processCustomAttrs pua rest acc
      | Except.ok (some (k, val)) => processCustomAttrs pua rest (dictInsert acc k val)

/-- The dict comprehension `{f"tags.{label['label_type']}":
label["label_value"] for label in labels}`. -/
def tagsOf {V : Type} (labels : List (String × V)) : List (String × V) :=
  dictUpdate [] (labels.map (fun l => ("tags." ++ l.1, l.2)))

/-- The same comprehension with the exclusion filter
`if label["label_type"].lower() not in …labels.exclude`. -/
def tagsOfExcluding {V : Type} (labels : List (String × V)) (exclude : List String) :
    List (String × V) :=
  dictUpdate []
    ((labels.filter (fun l => decide (pyLower l.1 ∉ exclude))).map
      (fun l => ("tags." ++ l.1, l.2)))

/-- The body of `get_log_events_common_block` inside the `try:` block. -/
def common_block_body {V E : Type} (cfg : LogConfig V)
    (pua : String → V → Except E (Option (String × V))) :
    Except E (List (String × V)) :=
  let step1 : Except E (List (String × V)) :=
    if !cfg.application_logging.forwarding.custom_attributes.isEmpty then
      match processCustomAttrs pua cfg.application_logging.forwarding.custom_attributes [] with
      | Except.error e => Except.error e
      | Except.ok custom_attributes => Except.ok (dictUpdate [] custom_attributes)
    else Except.ok []
  match step1 with
  | Except.error e => Except.error e
  | Except.ok common =>
    let labels := cfg.labels
    if labels.isEmpty || !cfg.application_logging.forwarding.labels.enabled then
      Except.ok common
    else if cfg.application_logging.forwarding.labels.exclude.isEmpty then
      Except.ok (dictUpdate common (tagsOf labels))
    else
      Except.ok (dictUpdate common
        (tagsOfExcluding labels cfg.application_logging.forwarding.labels.exclude))

/-- `Session.get_log_events_common_block(self)`: the body wrapped in the
blanket `try: … except Exception: return {}` guard. -/
def Session.get_log_events_common_block {V E : Type} (cfg : LogConfig V)
    (pua : String → V → Except E (Option (String × V))) : List (String × V) :=
  match common_block_body cfg pua with
  | Except.error _ => []
  | Except.ok common => common

/-! ### send_log_events -/

/-- The `{"common": {"attributes": …}}` field of the log payload. -/
structure LogCommon (V : Type) where
  attributes : List (String × V)
deriving DecidableEq, Repr

/-- The single dict inside the `payload` 1-tuple of `send_log_events`. -/
structure LogBody (V : Type) where
  logs : List (List (String × V))
  common : Option (LogCommon V)
deriving DecidableEq, Repr

/-- `Session.send_log_events(self, sampling_info, log_event_data)`: returns
the `(endpoint, payload)` handed to `self._protocol.send` together with the
protocol's response (the method's return value).  `asdict` is each record's
`log._asdict()`. -/
def Session.send_log_events {V E R ρ : Type} (cfg : LogConfig V)
    (pua : String → V → Except E (Option (String × V)))
    (respond : String → LogBody V → ρ)
    (log_event_data : List R) (asdict : R → List (String × V)) :
    (String × LogBody V) × ρ :=
  let payload : LogBody V := { logs := log_event_data.map asdict, common := none }
  let common := Session.get_log_events_common_block cfg pua
  let payload := if !common.isEmpty then { payload with common := some ⟨common⟩ } else payload
  (("log_event_data", payload), respond "log_event_data" payload)

/-! ### Session construction (C10)

`Session.__init__` connects the primary protocol, then the OTLP protocol;
each `Protocol.connect` may raise.  The event list records the connect
attempts in order, plus any `close_connection` call on the primary protocol
(`__init__` never makes one); the `Except` result is the constructor's
outcome. -/

/-- Observable protocol-level events during session construction. -/
inductive InitEvent where
  | connectPrimary
  | connectOtlp
  | closePrimary
deriving DecidableEq, Repr

/-- `Session.__init__(self, app_name, linked_applications, environment,
settings)`: the two `connect` calls in source order, no exception handling,
then `self._rpc = None`. -/
def Session.init {E P Q : Type} (primaryConnect : Except E P) (otlpConnect : Except E Q) :
    List InitEvent × Except E SessionState :=
  match primaryConnect with
  | Except.error e => ([InitEvent.connectPrimary], Except.error e)
  | Except.ok _ =>
    match otlpConnect with
    | Except.error e =>
      ([InitEvent.connectPrimary, InitEvent.connectOtlp], Except.error e)
    | Except.ok _ =>
      ([InitEvent.connectPrimary, InitEvent.connectOtlp],
        Except.ok SessionState.initial)

/-! ### Concrete fixtures used by witnesses and counterexamples -/

/-- A fully enabled streaming configuration (host set, all three gating
flags on, developer debug flag on). -/
def cfgFull : Configuration :=
  { infinite_tracing :=
      { trace_observer_host := some "obs.nr-data.net", trace_observer_port := 443,
        ssl := true, compression := true },
    distributed_tracing := ⟨true⟩, span_events := ⟨true⟩, collect_span_events := true,
    agent_run_id := 17, license_key := "lk", debug := ⟨true⟩ }

/-- `cfgFull` with the trace-observer host unset. -/
def cfgNoHost : Configuration :=
  { cfgFull with infinite_tracing :=
      { cfgFull.infinite_tracing with trace_observer_host := none } }

/-- `cfgFull` with distributed tracing disabled. -/
def cfgNoDT : Configuration :=
  { cfgFull with distributed_tracing := ⟨false⟩ }

/-- `cfgFull` with span events disabled. -/
def cfgNoSE : Configuration :=
  { cfgFull with span_events := ⟨false⟩ }

/-- `cfgFull` with span-event collection disabled. -/
def cfgNoCollect : Configuration :=
  { cfgFull with collect_span_events := false }

/-- The channel `cfgFull` gives rise to. -/
def rpcFull : StreamingRpc := createdRpc cfgFull "obs.nr-data.net"

/-- A log-forwarding configuration with no custom attributes, label
forwarding enabled, an upper-case exclusion entry and a lower-case label
type. -/
def cfgLabels : LogConfig String :=
  { application_logging :=
      { forwarding :=
          { custom_attributes := [],
            labels := { enabled := true, exclude := ["DEV"] } } },
    labels := [("dev", "west"), ("env", "prod")] }

/-- `cfgLabels` with a lower-case exclusion entry instead. -/
def cfgLabels2 : LogConfig String :=
  { application_logging :=
      { forwarding :=
          { custom_attributes := [],
            labels := { enabled := true, exclude := ["dev"] } } },
    labels := [("dev", "west"), ("env", "prod")] }

/-- A log-forwarding configuration with one custom attribute and label
forwarding disabled. -/
def cfgCustomOnly : LogConfig String :=
  { application_logging :=
      { forwarding :=
          { custom_attributes := [("a", "1")],
            labels := { enabled := false, exclude := [] } } },
    labels := [] }

/-- A protocol oracle answering log payloads with the number of records. -/
def respondLen : String → LogBody String → Nat := fun _ b => b.logs.length

/-- A `log._asdict()` stand-in for witness records. -/
def asdictW : Nat → List (String × String) := fun _ => [("message", "hi")]

/-- An attribute normalizer that accepts every pair unchanged. -/
def puaAccept : String → String → Except String (Option (String × String)) :=
  fun n v => Except.ok (some (n, v))

/-- An attribute normalizer that raises on every pair. -/
def puaRaise : String → String → Except String (Option (String × String)) :=
  fun _ _ => Except.error "boom"

/-! ## Helper lemmas (shared) -/

theorem append_left_cancel {p s t : String} (h : p ++ s = p ++ t) : s = t := by
  have hd : p.data ++ s.data = p.data ++ t.data := congrArg String.data h
  have h2 : s.data = t.data := List.append_cancel_left hd
  cases s; cases t
  exact congrArg String.mk h2

theorem append_left_injective (p : String) :
    Function.Injective (fun s => p ++ s) := fun _ _ h => append_left_cancel h

theorem dictLookup_dictInsert_self {V : Type} (d : List (String × V)) (k : String) (v : V) :
    dictLookup (dictInsert d k v) k = some v := by
  induction d with
  | nil => simp [dictInsert, dictLookup]
  | cons kv rest ih =>
    obtain ⟨k', v'⟩ := kv
    by_cases h : k' = k <;> simp [dictInsert, dictLookup, h, ih]

theorem dictLookup_dictInsert_ne {V : Type} (d : List (String × V)) {k k' : String} (v : V)
    (h : k' ≠ k) : dictLookup (dictInsert d k' v) k = dictLookup d k := by
  induction d with
  | nil => simp [dictInsert, dictLookup, h]
  | cons kv rest ih =>
    obtain ⟨k'', v''⟩ := kv
    by_cases h2 : k'' = k' <;> simp [dictInsert, dictLookup, h2, ih]
    · subst h2; simp [h, dictLookup]

theorem dictInsert_eq_append_of_not_mem {V : Type} {d : List (String × V)} {k : String}
    (v : V) (h : k ∉ d.map Prod.fst) : dictInsert d k v = d ++ [(k, v)] := by
  induction d with
  | nil => simp [dictInsert]
  | cons kv rest ih =>
    obtain ⟨k', v'⟩ := kv
    simp only [List.map_cons, List.mem_cons] at h
    push_neg at h
    simp [dictInsert, Ne.symm h.1, ih h.2]

theorem dictUpdate_eq_append_of_disjoint {V : Type} (other : List (String × V)) :
    ∀ d : List (String × V), (other.map Prod.fst).Nodup →
      (∀ k ∈ other.map Prod.fst, k ∉ d.map Prod.fst) →
      dictUpdate d other = d ++ other := by
  induction other with
  | nil => intro d _ _; simp [dictUpdate]
  | cons kv rest ih =>
    intro d hnd hdisj
    obtain ⟨k, v⟩ := kv
    simp only [List.map_cons, List.nodup_cons] at hnd
    have hk : k ∉ d.map Prod.fst := hdisj k (by simp)
    have hdisj2 : ∀ k' ∈ rest.map Prod.fst, k' ∉ (d ++ [(k, v)]).map Prod.fst := by
      intro k' hk'
      simp only [List.map_append, List.mem_append, List.map_cons, List.map_nil,
        List.mem_singleton, not_or]
      constructor
      · exact hdisj k' (by simp [hk'])
      · intro heq
        exact hnd.1 (heq ▸ hk')
    have step : dictUpdate d ((k, v) :: rest) = dictUpdate (dictInsert d k v) rest := rfl
    rw [step, dictInsert_eq_append_of_not_mem v hk, ih (d ++ [(k, v)]) hnd.2 hdisj2,
      List.append_assoc]
    rfl

theorem dictUpdate_nil_of_nodup {V : Type} {other : List (String × V)}
    (hnd : (other.map Prod.fst).Nodup) : dictUpdate [] other = other := by
  simpa using dictUpdate_eq_append_of_disjoint other [] hnd (by simp)

theorem dictLookup_eq_none_iff {V : Type} (d : List (String × V)) (k : String) :
    dictLookup d k = none ↔ k ∉ d.map Prod.fst := by
  induction d with
  | nil => simp [dictLookup]
  | cons kv rest ih =>
    obtain ⟨k', v'⟩ := kv
    by_cases h : k' = k
    · subst h; simp [dictLookup]
    · simp [dictLookup, h, Ne.symm h, ih]

theorem dictLookup_of_mem_nodup {V : Type} {d : List (String × V)} {k : String} {v : V}
    (hnd : (d.map Prod.fst).Nodup) (hm : (k, v) ∈ d) : dictLookup d k = some v := by
  induction d with
  | nil => simp at hm
  | cons kv rest ih =>
    obtain ⟨k', v'⟩ := kv
    simp only [List.map_cons, List.nodup_cons] at hnd
    rcases List.mem_cons.mp hm with heq | hmem
    · cases heq
      simp [dictLookup]
    · have hk : k' ≠ k := by
        intro heq
        exact hnd.1 (by rw [heq]; exact List.mem_map_of_mem Prod.fst hmem)
      simp [dictLookup, hk, ih hnd.2 hmem]

theorem connect_span_stream_noop_of_some (cfg : Configuration) (s : SessionState)
    (h : s.rpc.isSome = true) : Session.connect_span_stream cfg s = (s, none) := by
  simp [Session.connect_span_stream, h]

theorem apply_preserves_some (op : SessionOp) (s : SessionState)
    (h : s.rpc.isSome = true) : (SessionOp.apply s op).rpc.isSome = true := by
  cases op with
  | connect cfg => simp [SessionOp.apply, connect_span_stream_noop_of_some cfg s h, h]
  | connectDev cfg =>
    simp only [SessionOp.apply, DeveloperModeSession.connect_span_stream]
    by_cases hd : cfg.debug.connect_span_stream_in_developer_mode <;>
      simp [hd, connect_span_stream_noop_of_some cfg s h, h]
  | connectServerless cfg => simpa [SessionOp.apply, ServerlessModeSession.connect_span_stream]
  | shutdown =>
    simp only [SessionOp.apply, Session.shutdown_span_stream]
    cases hr : s.rpc with
    | none => rw [hr] at h; simp at h
    | some r => simp

theorem runOps_count_le (ops : List SessionOp) :
    ∀ s : SessionState, (runOps s ops).2 ≤ if s.rpc.isSome then 0 else 1 := by
  induction ops with
  | nil => intro s; simp [runOps]
  | cons op rest ih =>
    intro s
    by_cases h : s.rpc.isSome = true
    · have hs' := apply_preserves_some op s h
      have := ih (SessionOp.apply s op)
      simp [runOps, h, hs'] at *
      omega
    · simp only [Bool.not_eq_true] at h
      by_cases h2 : (SessionOp.apply s op).rpc.isSome = true
      · have := ih (SessionOp.apply s op)
        simp [runOps, h, h2] at *
        omega
      · simp only [Bool.not_eq_true] at h2
        have := ih (SessionOp.apply s op)
        simp [runOps, h, h2] at *
        omega

theorem connect_span_stream_creates (cfg : Configuration) (s : SessionState) (host : String)
    (h0 : s.rpc = none)
    (h1 : pyTruthyStr cfg.infinite_tracing.trace_observer_host = some host)
    (h2 : cfg.distributed_tracing.enabled = true)
    (h3 : cfg.span_events.enabled = true)
    (h4 : cfg.collect_span_events = true) :
    Session.connect_span_stream cfg s =
      ({ rpc := some (createdRpc cfg host) }, some (createdRpc cfg host)) := by
  simp [Session.connect_span_stream, h0, h1, h2, h3, h4, createdRpc]

/-! ## Claim theorems -/

/-- C1: for every combination of process-wide settings, `create_session`
constructs the serverless-mode session whenever serverless mode is enabled
(regardless of the developer-mode flag), the developer-mode session when
developer mode is enabled and serverless mode is not, and the default
session otherwise; as a total function into the three-variant type it
produces exactly one variant per call. -/
theorem create_session_variant_selection (settings : GlobalSettings) :
    (settings.serverless_mode.enabled = true →
      create_session settings = SessionKind.serverlessModeSession) ∧
    (settings.serverless_mode.enabled = false → settings.developer_mode = true →
      create_session settings = SessionKind.developerModeSession) ∧
    (settings.serverless_mode.enabled = false → settings.developer_mode = false →
      create_session settings = SessionKind.session) :=
  ⟨fun h1 => by simp [create_session, h1],
   fun h1 h2 => by simp [create_session, h1, h2],
   fun h1 h2 => by simp [create_session, h1, h2]⟩

theorem create_session_variant_selection_witness :
    create_session ⟨⟨true⟩, true⟩ = SessionKind.serverlessModeSession ∧
    create_session ⟨⟨false⟩, true⟩ = SessionKind.developerModeSession ∧
    create_session ⟨⟨false⟩, false⟩ = SessionKind.session :=
  ⟨(create_session_variant_selection ⟨⟨true⟩, true⟩).1 rfl,
   (create_session_variant_selection ⟨⟨false⟩, true⟩).2.1 rfl rfl,
   (create_session_variant_selection ⟨⟨false⟩, false⟩).2.2 rfl rfl⟩

/-- C2: at most one streaming channel is ever created per session: once a
channel has been created and stored in `self._rpc`, every subsequent
`connect_span_stream` call — on the base, developer-mode or serverless
session, under any configuration — is a no-op that leaves the state
unchanged and returns `None`; and over an arbitrary sequence of lifecycle
calls started from a fresh session, at most one call creates a channel. -/
theorem connect_span_stream_at_most_once (cfg : Configuration) (s : SessionState)
    (r : StreamingRpc) (ops : List SessionOp) (h : s.rpc = some r) :
    Session.connect_span_stream cfg s = (s, none) ∧
    DeveloperModeSession.connect_span_stream cfg s = (s, none) ∧
    ServerlessModeSession.connect_span_stream cfg s = (s, none) ∧
    (runOps SessionState.initial ops).2 ≤ 1 := by
  have hs : s.rpc.isSome = true := by rw [h]; rfl
  have h1 := connect_span_stream_noop_of_some cfg s hs
  refine ⟨h1, ?_, rfl, ?_⟩
  · by_cases hd : cfg.debug.connect_span_stream_in_developer_mode <;>
      simp [DeveloperModeSession.connect_span_stream, hd, h1]
  · simpa [SessionState.initial] using runOps_count_le ops SessionState.initial

theorem connect_span_stream_at_most_once_witness :
    Session.connect_span_stream cfgFull { rpc := some rpcFull } =
      ({ rpc := some rpcFull }, none) ∧
    DeveloperModeSession.connect_span_stream cfgFull { rpc := some rpcFull } =
      ({ rpc := some rpcFull }, none) ∧
    ServerlessModeSession.connect_span_stream cfgFull { rpc := some rpcFull } =
      ({ rpc := some rpcFull }, none) ∧
    (runOps SessionState.initial
      [SessionOp.connect cfgFull, SessionOp.connect cfgFull, SessionOp.shutdown,
        SessionOp.connect cfgFull]).2 ≤ 1 :=
  connect_span_stream_at_most_once cfgFull { rpc := some rpcFull } rpcFull
    [SessionOp.connect cfgFull, SessionOp.connect cfgFull, SessionOp.shutdown,
      SessionOp.connect cfgFull] rfl

/-- C3: `connect_span_stream` creates no channel and returns `None` when the
trace-observer host is unset (or empty), and likewise when any one of
distributed tracing, span-event collection or span-event reporting is
disabled; in each case the session state is unchanged (the channel stays
absent) and no exception is possible (the embedding is a total function),
and a later call on the same still-absent state with a fully enabled
configuration does create a channel. -/
theorem connect_span_stream_feature_disabled (cfg : Configuration) (s : SessionState)
    (h : s.rpc = none) :
    (pyTruthyStr cfg.infinite_tracing.trace_observer_host = none →
      Session.connect_span_stream cfg s = (s, none)) ∧
    (cfg.distributed_tracing.enabled = false →
      Session.connect_span_stream cfg s = (s, none)) ∧
    (cfg.span_events.enabled = false →
      Session.connect_span_stream cfg s = (s, none)) ∧
    (cfg.collect_span_events = false →
      Session.connect_span_stream cfg s = (s, none)) ∧
    (∀ cfg' host, pyTruthyStr cfg'.infinite_tracing.trace_observer_host = some host →
      cfg'.distributed_tracing.enabled = true → cfg'.span_events.enabled = true →
      cfg'.collect_span_events = true →
      (Session.connect_span_stream cfg' s).2 = some (createdRpc cfg' host)) := by
  have hs : s.rpc.isSome = false := by rw [h]; rfl
  refine ⟨?_, ?_, ?_, ?_, ?_⟩
  · intro h1; simp [Session.connect_span_stream, hs, h1]
  · intro h1
    cases hp : pyTruthyStr cfg.infinite_tracing.trace_observer_host <;>
      simp [Session.connect_span_stream, hs, hp, h1]
  · intro h1
    cases hp : pyTruthyStr cfg.infinite_tracing.trace_observer_host <;>
      simp [Session.connect_span_stream, hs, hp, h1]
  · intro h1
    cases hp : pyTruthyStr cfg.infinite_tracing.trace_observer_host <;>
      simp [Session.connect_span_stream, hs, hp, h1]
  · intro cfg' host h1 h2 h3 h4
    rw [connect_span_stream_creates cfg' s host h h1 h2 h3 h4]

theorem connect_span_stream_feature_disabled_witness :
    (Session.connect_span_stream cfgNoHost SessionState.initial =
      (SessionState.initial, none)) ∧
    (Session.connect_span_stream cfgNoDT SessionState.initial =
      (SessionState.initial, none)) ∧
    (Session.connect_span_stream cfgNoSE SessionState.initial =
      (SessionState.initial, none)) ∧
    (Session.connect_span_stream cfgNoCollect SessionState.initial =
      (SessionState.initial, none)) ∧
    ((Session.connect_span_stream cfgFull SessionState.initial).2 =
      some (createdRpc cfgFull "obs.nr-data.net")) :=
  ⟨(connect_span_stream_feature_disabled cfgNoHost SessionState.initial rfl).1 rfl,
   (connect_span_stream_feature_disabled cfgNoDT SessionState.initial rfl).2.1 rfl,
   (connect_span_stream_feature_disabled cfgNoSE SessionState.initial rfl).2.2.1 rfl,
   (connect_span_stream_feature_disabled cfgNoCollect SessionState.initial rfl).2.2.2.1 rfl,
   (connect_span_stream_feature_disabled cfgFull SessionState.initial rfl).2.2.2.2
     cfgFull "obs.nr-data.net" (by decide) rfl rfl rfl⟩

/-- C4 counterexample: on the developer-mode session with the debug flag set
and a fully enabled configuration, `connect_span_stream` creates, connects
and stores a channel, yet returns `None` instead of the created handle: the
override discards the result of the `super()` call. -/
theorem developer_connect_span_stream_returns_none :
    (DeveloperModeSession.connect_span_stream cfgFull SessionState.initial).1.rpc =
      some rpcFull ∧
    (DeveloperModeSession.connect_span_stream cfgFull SessionState.initial).2 = none :=
  ⟨rfl, rfl⟩

/-- C4 (amended): whenever the base `Session.connect_span_stream` actually
creates a streaming channel (trace-observer host set and distributed
tracing, span-event reporting and span-event collection all enabled), it
builds the channel from `host:port`, the ordered auth-metadata pair and the
configured ssl/compression settings, connects it, stores it on the session
and returns the handle.  The developer-mode override with the debug flag
true performs the same creation, connection and storage via `super()`, but
returns `None` (the override discards the super call's result); with the
flag false it is a silent no-op. -/
theorem connect_span_stream_creation_contract (cfg : Configuration) (s : SessionState)
    (host : String) (h0 : s.rpc = none)
    (h1 : pyTruthyStr cfg.infinite_tracing.trace_observer_host = some host)
    (h2 : cfg.distributed_tracing.enabled = true)
    (h3 : cfg.span_events.enabled = true)
    (h4 : cfg.collect_span_events = true) :
    Session.connect_span_stream cfg s =
      ({ rpc := some (createdRpc cfg host) }, some (createdRpc cfg host)) ∧
    (createdRpc cfg host).connected = true ∧
    (createdRpc cfg host).endpoint =
      host ++ ":" ++ toString cfg.infinite_tracing.trace_observer_port ∧
    (createdRpc cfg host).metadata =
      (("agent_run_token", cfg.agent_run_id), ("license_key", cfg.license_key)) ∧
    (createdRpc cfg host).ssl = cfg.infinite_tracing.ssl ∧
    (createdRpc cfg host).compression = cfg.infinite_tracing.compression ∧
    (cfg.debug.connect_span_stream_in_developer_mode = true →
      DeveloperModeSession.connect_span_stream cfg s =
        ({ rpc := some (createdRpc cfg host) }, none)) ∧
    (cfg.debug.connect_span_stream_in_developer_mode = false →
      DeveloperModeSession.connect_span_stream cfg s = (s, none)) := by
  have hc := connect_span_stream_creates cfg s host h0 h1 h2 h3 h4
  refine ⟨hc, rfl, rfl, rfl, rfl, rfl, ?_, ?_⟩
  · intro hd; simp [DeveloperModeSession.connect_span_stream, hd, hc]
  · intro hd; simp [DeveloperModeSession.connect_span_stream, hd]

theorem connect_span_stream_creation_contract_witness :
    Session.connect_span_stream cfgFull SessionState.initial =
      ({ rpc := some rpcFull }, some rpcFull) ∧
    rpcFull.connected = true ∧
    rpcFull.endpoint = "obs.nr-data.net" ++ ":" ++ toString 443 ∧
    rpcFull.metadata = (("agent_run_token", 17), ("license_key", "lk")) ∧
    rpcFull.ssl = true ∧
    rpcFull.compression = true ∧
    DeveloperModeSession.connect_span_stream cfgFull SessionState.initial =
      ({ rpc := some rpcFull }, none) := by
  have h := connect_span_stream_creation_contract cfgFull SessionState.initial
    "obs.nr-data.net" rfl (by decide) rfl rfl rfl
  exact ⟨h.1, h.2.1, h.2.2.1, h.2.2.2.1, h.2.2.2.2.1, h.2.2.2.2.2.1,
    h.2.2.2.2.2.2.1 rfl⟩

/-- C5 counterexample: a `shutdown_span_stream` call on a session that never
created a channel is not terminal — a subsequent `connect_span_stream` with
a fully enabled configuration still creates and returns a channel,
contradicting the claim that after any shutdown call no later connect ever
creates one. -/
theorem shutdown_span_stream_not_terminal :
    (Session.connect_span_stream cfgFull
        (Session.shutdown_span_stream SessionState.initial)).2 = some rpcFull :=
  rfl

/-- C5 (amended): `shutdown_span_stream` calls `close()` on the channel when
one exists and is a no-op otherwise; it does not clear `self._rpc` and sets
no closed marker on the session.  Consequently, when a channel existed at
the call, the stored handle persists and no subsequent
`connect_span_stream` ever creates another channel; but when no channel
existed the state remains absent, and a later connect call may still create
one. -/
theorem shutdown_span_stream_behavior (s : SessionState) :
    (s.rpc = none → Session.shutdown_span_stream s = s) ∧
    (∀ r, s.rpc = some r →
      Session.shutdown_span_stream s = { rpc := some r.close } ∧
      r.close.closed = true ∧
      (∀ cfg, Session.connect_span_stream cfg (Session.shutdown_span_stream s) =
        (Session.shutdown_span_stream s, none))) := by
  constructor
  · intro h; simp [Session.shutdown_span_stream, h]
  · intro r h
    have hs : Session.shutdown_span_stream s = { rpc := some r.close } := by
      simp [Session.shutdown_span_stream, h]
    refine ⟨hs, rfl, fun cfg => ?_⟩
    rw [hs]
    exact connect_span_stream_noop_of_some cfg _ rfl

theorem shutdown_span_stream_behavior_witness :
    Session.shutdown_span_stream SessionState.initial = SessionState.initial ∧
    Session.shutdown_span_stream { rpc := some rpcFull } =
      { rpc := some rpcFull.close } ∧
    Session.connect_span_stream cfgFull
        (Session.shutdown_span_stream { rpc := some rpcFull }) =
      (Session.shutdown_span_stream { rpc := some rpcFull }, none) :=
  ⟨(shutdown_span_stream_behavior SessionState.initial).1 rfl,
   ((shutdown_span_stream_behavior { rpc := some rpcFull }).2 rpcFull rfl).1,
   ((shutdown_span_stream_behavior { rpc := some rpcFull }).2 rpcFull rfl).2.2 cfgFull⟩

/-- C6: `send_transaction_traces` with an empty trace collection returns
immediately with no value and performs no protocol send; with a non-empty
collection it sends the payload `(agent_run_id, transaction_traces)` to the
`transaction_sample_data` endpoint on the primary protocol and returns the
protocol's response. -/
theorem send_transaction_traces_spec {α ρ : Type} (respond : String → Nat × List α → ρ)
    (agent_run_id : Nat) (transaction_traces : List α) :
    (transaction_traces = [] →
      Session.send_transaction_traces respond agent_run_id transaction_traces =
        ([], none)) ∧
    (transaction_traces ≠ [] →
      Session.send_transaction_traces respond agent_run_id transaction_traces =
        ([("transaction_sample_data", (agent_run_id, transaction_traces))],
          some (respond "transaction_sample_data" (agent_run_id, transaction_traces)))) := by
  constructor
  · intro h; simp [Session.send_transaction_traces, h]
  · intro h; simp [Session.send_transaction_traces, h]

theorem send_transaction_traces_spec_witness :
    Session.send_transaction_traces (fun _ p => p.1) 7 ([] : List Nat) = ([], none) ∧
    Session.send_transaction_traces (fun _ p => p.1) 7 [42] =
      ([("transaction_sample_data", (7, [42]))], some 7) :=
  ⟨(send_transaction_traces_spec (fun _ p => p.1) 7 []).1 rfl,
   (send_transaction_traces_spec (fun _ p => p.1) 7 [42]).2 (by decide)⟩

/-- C8: `get_log_events_common_block` never propagates an exception: every
fallible internal step is threaded through `common_block_body`, the blanket
guard converts any failure of the body into the empty mapping, and on
success the method returns the body's mapping unchanged — as a total
function into plain mappings, a mapping is returned for every
configuration. -/
theorem get_log_events_common_block_guard {V E : Type} (cfg : LogConfig V)
    (pua : String → V → Except E (Option (String × V))) :
    (∀ e, common_block_body cfg pua = Except.error e →
      Session.get_log_events_common_block cfg pua = []) ∧
    (∀ m, common_block_body cfg pua = Except.ok m →
      Session.get_log_events_common_block cfg pua = m) := by
  constructor
  · intro e he; simp [Session.get_log_events_common_block, he]
  · intro m hm; simp [Session.get_log_events_common_block, hm]

theorem get_log_events_common_block_guard_witness :
    common_block_body cfgCustomOnly puaRaise = Except.error "boom" ∧
    Session.get_log_events_common_block cfgCustomOnly puaRaise = [] ∧
    common_block_body cfgCustomOnly puaAccept = Except.ok [("a", "1")] ∧
    Session.get_log_events_common_block cfgCustomOnly puaAccept = [("a", "1")] :=
  ⟨rfl,
   (get_log_events_common_block_guard cfgCustomOnly puaRaise).1 "boom" rfl,
   rfl,
   (get_log_events_common_block_guard cfgCustomOnly puaAccept).2 [("a", "1")] rfl⟩

/-- C10: session construction connects the primary protocol first and the
OTLP protocol second; when the OTLP connect raises, the exception
propagates out of the constructor while the already-connected primary
protocol is left open — `close_connection` is never invoked on it — and
when both connects succeed the session starts with no streaming channel. -/
theorem session_init_contract {E P Q : Type} (pv : P) (e : E) :
    Session.init (Except.ok pv) (Except.error e : Except E Q) =
      ([InitEvent.connectPrimary, InitEvent.connectOtlp], Except.error e) ∧
    InitEvent.closePrimary ∉
      (Session.init (Except.ok pv) (Except.error e : Except E Q)).1 ∧
    (∀ qv : Q, Session.init (Except.ok pv) (Except.ok qv : Except E Q) =
      ([InitEvent.connectPrimary, InitEvent.connectOtlp],
        Except.ok SessionState.initial)) := by
  refine ⟨rfl, ?_, fun qv => rfl⟩
  simp [Session.init]

/-- C9: every `send_log_events` call sends, to the `log_event_data` endpoint
of the primary protocol, a payload that contains the supplied log records
(each converted to a mapping, under the `logs` key); the payload carries a
`common.attributes` field if and only if the common-block builder produced
a non-empty mapping for that call, and when present that field is exactly
the builder's mapping; the method returns the protocol's response to the
payload it sent. -/
theorem send_log_events_spec {V E R ρ : Type} (cfg : LogConfig V)
    (pua : String → V → Except E (Option (String × V)))
    (respond : String → LogBody V → ρ) (log_event_data : List R)
    (asdict : R → List (String × V)) :
    ((Session.send_log_events cfg pua respond log_event_data asdict).1.1 =
      "log_event_data") ∧
    ((Session.send_log_events cfg pua respond log_event_data asdict).1.2.logs =
      log_event_data.map asdict) ∧
    ((Session.send_log_events cfg pua respond log_event_data asdict).1.2.common ≠ none ↔
      Session.get_log_events_common_block cfg pua ≠ []) ∧
    (∀ m, (Session.send_log_events cfg pua respond log_event_data asdict).1.2.common =
        some m → m.attributes = Session.get_log_events_common_block cfg pua) ∧
    ((Session.send_log_events cfg pua respond log_event_data asdict).2 =
      respond "log_event_data"
        (Session.send_log_events cfg pua respond log_event_data asdict).1.2) := by
  cases hc : (Session.get_log_events_common_block cfg pua).isEmpty with
  | true =>
    have h0 : Session.get_log_events_common_block cfg pua = [] := by
      cases hg : Session.get_log_events_common_block cfg pua with
      | nil => rfl
      | cons a l => rw [hg] at hc; simp at hc
    simp [Session.send_log_events, hc, h0]
  | false =>
    have h0 : Session.get_log_events_common_block cfg pua ≠ [] := by
      intro hg; rw [hg] at hc; simp at hc
    refine ⟨?_, ?_, ?_, ?_, ?_⟩ <;> simp [Session.send_log_events, hc, h0]

theorem send_log_events_spec_witness :
    (Session.send_log_events cfgLabels puaAccept respondLen [0] asdictW).1.1 =
      "log_event_data" ∧
    (Session.send_log_events cfgLabels puaAccept respondLen [0] asdictW).1.2.logs =
      [[("message", "hi")]] ∧
    LogCommon.attributes ⟨[("tags.dev", "west"), ("tags.env", "prod")]⟩ =
      Session.get_log_events_common_block cfgLabels puaAccept ∧
    (Session.send_log_events cfgLabels puaAccept respondLen [0] asdictW).2 = 1 := by
  have h := send_log_events_spec cfgLabels puaAccept respondLen [0] asdictW
  refine ⟨h.1, ?_, ?_, ?_⟩
  · rw [h.2.1]; rfl
  · exact h.2.2.2.1 ⟨[("tags.dev", "west"), ("tags.env", "prod")]⟩ (by decide)
  · rw [h.2.2.2.2]; rfl

/-- C7 counterexample: with exclusion list `["DEV"]` and label
`("dev", "west")`, the label's type matches the exclusion entry up to
letter case (`pyLower` sends both to `"dev"`), yet the builder keeps the
`tags.dev` entry: the code lowercases only the label's type and compares it
verbatim with the exclusion entries, so an exclusion entry containing an
upper-case letter excludes nothing. -/
theorem label_exclusion_not_case_insensitive :
    pyLower "dev" = pyLower "DEV" ∧
    "DEV" ∈ cfgLabels.application_logging.forwarding.labels.exclude ∧
    dictLookup (Session.get_log_events_common_block cfgLabels puaAccept) ("tags." ++ "dev") =
      some "west" := by
  refine ⟨?_, ?_, ?_⟩ <;> decide

/-- C7 (amended): when label forwarding is enabled and a non-empty exclusion
list is present (stated here for configurations without custom attributes
and with pairwise-distinct label types), the common block contains a
`tags.<label_type>` entry for exactly those labels whose lowercased type
does not occur verbatim in the exclusion list: a label is omitted precisely
when `label_type.lower()` is an element of the exclusion list, so matching
is case-insensitive in the label's type but case-sensitive in the exclusion
entries. -/
theorem label_exclusion_contract {V E : Type} (cfg : LogConfig V)
    (pua : String → V → Except E (Option (String × V))) (t : String) (v : V)
    (hca : cfg.application_logging.forwarding.custom_attributes = [])
    (hen : cfg.application_logging.forwarding.labels.enabled = true)
    (hlne : cfg.labels ≠ [])
    (hexne : cfg.application_logging.forwarding.labels.exclude ≠ [])
    (hnd : (cfg.labels.map Prod.fst).Nodup)
    (hmem : (t, v) ∈ cfg.labels) :
    (pyLower t ∈ cfg.application_logging.forwarding.labels.exclude →
      dictLookup (Session.get_log_events_common_block cfg pua) ("tags." ++ t) = none) ∧
    (pyLower t ∉ cfg.application_logging.forwarding.labels.exclude →
      dictLookup (Session.get_log_events_common_block cfg pua) ("tags." ++ t) = some v) := by
  set exclude := cfg.application_logging.forwarding.labels.exclude with hexdef
  set pairs := (cfg.labels.filter (fun l => decide (pyLower l.1 ∉ exclude))).map
      (fun l => ("tags." ++ l.1, l.2)) with hpairsdef
  have hkeys : pairs.map Prod.fst =
      (cfg.labels.filter (fun l => decide (pyLower l.1 ∉ exclude))).map
        (fun l => "tags." ++ l.1) := by
    rw [hpairsdef, List.map_map]
    rfl
  have hfilnd : ((cfg.labels.filter
      (fun l => decide (pyLower l.1 ∉ exclude))).map Prod.fst).Nodup :=
    hnd.sublist ((List.filter_sublist cfg.labels).map Prod.fst)
  have hknd : (pairs.map Prod.fst).Nodup := by
    rw [hkeys]
    have hmm : (cfg.labels.filter (fun l => decide (pyLower l.1 ∉ exclude))).map
        (fun l => "tags." ++ l.1) =
        ((cfg.labels.filter (fun l => decide (pyLower l.1 ∉ exclude))).map
          Prod.fst).map (fun x => "tags." ++ x) := by
      rw [List.map_map]
      rfl
    rw [hmm]
    exact hfilnd.map (append_left_injective "tags.")
  have hpairs_eq : tagsOfExcluding cfg.labels exclude = pairs := by
    unfold tagsOfExcluding
    exact dictUpdate_nil_of_nodup hknd
  have hget : Session.get_log_events_common_block cfg pua = pairs := by
    have hle : cfg.labels.isEmpty = false := by
      cases hl : cfg.labels with
      | nil => exact absurd hl hlne
      | cons a l => rfl
    have hee : exclude.isEmpty = false := by
      cases he2 : exclude with
      | nil => exact absurd he2 hexne
      | cons a l => rfl
    unfold Session.get_log_events_common_block common_block_body
    rw [hca]
    simp only [List.isEmpty_nil, Bool.not_true, Bool.false_eq_true, if_false, hle, hen,
      Bool.not_true, Bool.false_or, if_false, hee]
    simp [hle, hen, hee, ← hexdef, hpairs_eq]
    exact dictUpdate_nil_of_nodup hknd
  rw [hget]
  constructor
  · intro hin
    rw [dictLookup_eq_none_iff, hkeys]
    intro hcontra
    obtain ⟨l, hl, heq⟩ := List.mem_map.mp hcontra
    have hteq : l.1 = t := append_left_cancel heq
    have hfil := (List.mem_filter.mp hl).2
    rw [hteq] at hfil
    simp only [decide_eq_true_eq] at hfil
    exact hfil hin
  · intro hnin
    have hlmem : (t, v) ∈ cfg.labels.filter (fun l => decide (pyLower l.1 ∉ exclude)) :=
      List.mem_filter.mpr ⟨hmem, by simpa using hnin⟩
    have hpmem : ("tags." ++ t, v) ∈ pairs := by
      rw [hpairsdef]
      exact List.mem_map_of_mem _ hlmem
    exact dictLookup_of_mem_nodup hknd hpmem

theorem label_exclusion_contract_witness :
    dictLookup (Session.get_log_events_common_block cfgLabels2 puaAccept)
      ("tags." ++ "dev") = none ∧
    dictLookup (Session.get_log_events_common_block cfgLabels2 puaAccept)
      ("tags." ++ "env") = some "prod" :=
  ⟨(label_exclusion_contract cfgLabels2 puaAccept "dev" "west" rfl rfl (by decide)
      (by decide) (by decide) (by decide)).1 (by decide),
   (label_exclusion_contract cfgLabels2 puaAccept "env" "prod" rfl rfl (by decide)
      (by decide) (by decide) (by decide)).2 (by decide)⟩
